import Mathlib

/-!
Shallow embedding of `gatsby-node.js` from the emmenko.github.io repository.

The file's four exported Gatsby lifecycle hooks (`createSchemaCustomization`,
`sourceNodes`, `onCreateNode`, `createPages`) only interact with the framework
by invoking the injected action callbacks (`createTypes`,
`createFieldExtension`, `createNode`, `createParentChildLink`, `createPage`,
`reporter.panicOnBuild`).  Each hook is therefore embedded as a pure function
from its inputs to the list of framework actions it performs, in order.
Framework-supplied helpers that the hooks merely call through
(`createNodeId`, `createContentDigest`, JSON serialization, lodash's
`kebabCase`) are taken as function parameters.
-/

namespace GatsbyNode

/-- JS truthiness of an optional string field: `undefined`/`null` (here `none`)
and the empty string are falsy, every other string is truthy. -/
def jsTruthy : Option String → Bool
  | none => false
  | some s => s != ""

/-- The JS `.replace(/\/\/+/g, '/')` used in `slugify` and `createPages`:
every maximal run of two or more consecutive slashes is replaced by a single
slash (a single slash is left unchanged, so every run of slashes collapses to
one).  The boolean accumulator records whether the previous input character
was a slash. -/
def collapseGo : Bool → List Char → List Char
  | _, [] => []
  | prevSlash, c :: rest =>
    if c = '/' then
      if prevSlash then collapseGo true rest
      else '/' :: collapseGo true rest
    else c :: collapseGo false rest

/-- String form of `.replace(/\/\/+/g, '/')`. -/
def collapseSlashes (s : String) : String := ⟨collapseGo false s.data⟩

/-- `true` iff the character list contains two consecutive slashes, i.e. the
string matches the regex `\/\//`. -/
def hasDoubleSlash : List Char → Bool
  | c1 :: c2 :: rest => (c1 == '/' && c2 == '/') || hasDoubleSlash (c2 :: rest)
  | _ => false

/-- The resolver source seen by the `slugify` field extension: the fields of a
`StoryPage` node that `slugify` reads.  `slug` is `Option` because the
`MdxStoryPage` node may carry `undefined` there; `title` is a plain string as
the schema declares `title: String!`. -/
structure SlugSource where
  slug : Option String
  title : String
  deriving DecidableEq, Repr

/-- The `slugify` resolver from `createSchemaCustomization`:
`const slug = source.slug ? source.slug : kebabCase(source.title);`
`return ('/' + slug).replace(/\/\/+/g, '/');`
lodash's `kebabCase` is an external dependency, taken as a parameter. -/
def slugify (kebabCase : String → String) (source : SlugSource) : String :=
  let slug := match source.slug with
    | some s => if s != "" then s else kebabCase source.title
    | none => kebabCase source.title
  collapseSlashes ("/" ++ slug)

/-- Framework actions performed by `createSchemaCustomization`. -/
inductive SchemaAction
  | createFieldExtension (name : String)
  | createTypes (typeDefs : String)
  deriving DecidableEq, Repr

/-- The GraphQL SDL string passed to `createTypes`. -/
def storyPageTypeDefs : String :=
  "
    type StoryPageTag \x7b
      name: String
      slug: String
    \x7d

    interface StoryPage @nodeInterface \x7b
      id: ID!
      slug: String! @slugify
      title: String!
      releaseDate: Date! @dateformat
      excerpt(pruneLength: Int = 160): String!
      body: String!
      timeToRead: Int
      tags: [StoryPageTag]
      banner: File @fileByRelativePath
      description: String
    \x7d

    type MdxStoryPage implements Node & StoryPage \x7b
      slug: String! @slugify
      title: String!
      releaseDate: Date! @dateformat
      excerpt(pruneLength: Int = 140): String! @mdxpassthrough(fieldName: \"excerpt\")
      body: String! @mdxpassthrough(fieldName: \"body\")
      timeToRead: Int @mdxpassthrough(fieldName: \"timeToRead\")
      tags: [StoryPageTag]
      banner: File @fileByRelativePath
      description: String
    \x7d

    type MinimalBlogConfig implements Node \x7b
      storiesPath: String!
      externalLinks: [ExternalLink!]!
      navigation: [NavigationEntry!]!
    \x7d
    type ExternalLink \x7b
      name: String!
      url: String!
    \x7d
    type NavigationEntry \x7b
      title: String!
      slug: String!
    \x7d
  "

/-- `exports.createSchemaCustomization`: registers the two field extensions and
the type definitions, in source order.  It reads no data input. -/
def createSchemaCustomization : List SchemaAction :=
  [SchemaAction.createFieldExtension "slugify",
   SchemaAction.createFieldExtension "mdxpassthrough",
   SchemaAction.createTypes storyPageTypeDefs]

structure ExternalLink where
  name : String
  url : String
  deriving DecidableEq, Repr

structure NavigationEntry where
  title : String
  slug : String
  deriving DecidableEq, Repr

/-- The literal `minimalBlogConfig` object built by `sourceNodes`. -/
structure MinimalBlogConfigData where
  storiesPath : String
  externalLinks : List ExternalLink
  navigation : List NavigationEntry
  deriving DecidableEq, Repr

/-- The node object passed to `createNode` by `sourceNodes`. -/
structure ConfigNode where
  data : MinimalBlogConfigData
  id : String
  parent : Option String
  internalType : String
  contentDigest : String
  content : String
  deriving DecidableEq, Repr

/-- Framework actions performed by `sourceNodes`. -/
inductive SourceNodesAction
  | createNode (node : ConfigNode)
  deriving DecidableEq, Repr

/-- `exports.sourceNodes`: creates the single `MinimalBlogConfig` node.
`createContentDigest` and JSON serialization are framework helpers, taken as
parameters. -/
def sourceNodes (createContentDigest : MinimalBlogConfigData → String)
    (stringifyJson : MinimalBlogConfigData → String) : List SourceNodesAction :=
  let minimalBlogConfig : MinimalBlogConfigData :=
    { storiesPath := "/stories", externalLinks := [], navigation := [] }
  [SourceNodesAction.createNode
    { data := minimalBlogConfig
      id := "site >>> config"
      parent := none
      internalType := "MinimalBlogConfig"
      contentDigest := createContentDigest minimalBlogConfig
      content := stringifyJson minimalBlogConfig }]

/-- The frontmatter fields of an Mdx node that `onCreateNode` reads.  Each is
`Option` because frontmatter keys may be absent. -/
structure Frontmatter where
  slug : Option String
  title : Option String
  releaseDate : Option String
  banner : Option String
  description : Option String
  deriving DecidableEq, Repr

structure MdxInternal where
  type : String
  deriving DecidableEq, Repr

/-- The node argument of `onCreateNode`: the fields the hook reads. -/
structure MdxNode where
  id : String
  parent : String
  internal : MdxInternal
  frontmatter : Frontmatter
  deriving DecidableEq, Repr

/-- The parent file node, as returned by `getNode(node.parent)`. -/
structure FileNode where
  sourceInstanceName : String
  deriving DecidableEq, Repr

/-- The `fieldData` object assembled by `onCreateNode`. -/
structure FieldData where
  slug : Option String
  title : Option String
  releaseDate : Option String
  banner : Option String
  description : Option String
  deriving DecidableEq, Repr

/-- The node object passed to `createNode` by `onCreateNode`. -/
structure CreatedStoryNode where
  data : FieldData
  id : String
  parent : String
  internalType : String
  contentDigest : String
  content : String
  internalDescription : String
  deriving DecidableEq, Repr

/-- Framework actions performed by `onCreateNode`.  The parent/child link is
recorded by the ids of the two nodes it connects. -/
inductive OnCreateNodeAction
  | createNode (node : CreatedStoryNode)
  | createParentChildLink (parentId : String) (childId : String)
  deriving DecidableEq, Repr

/-- The `fieldData` object literal assembled by `onCreateNode` for a stories
Mdx node:
`slug: node.frontmatter.slug ? node.frontmatter.slug : undefined` and the
remaining frontmatter fields verbatim. -/
def storyFieldData (fm : Frontmatter) : FieldData :=
  { slug := if jsTruthy fm.slug then fm.slug else none
    title := fm.title
    releaseDate := fm.releaseDate
    banner := fm.banner
    description := fm.description }

/-- `exports.onCreateNode`: returns early unless `node.internal.type` is
`'Mdx'`; then, if the parent file node's `sourceInstanceName` is `'stories'`,
creates the `MdxStoryPage` child node and links it to its parent.
`createNodeId`, `createContentDigest` and JSON serialization are framework
helpers, taken as parameters; `getNode` is the node store lookup. -/
def onCreateNode (createNodeId : String → String)
    (createContentDigest : FieldData → String) (stringifyJson : FieldData → String)
    (node : MdxNode) (getNode : String → FileNode) : List OnCreateNodeAction :=
  if node.internal.type != "Mdx" then []
  else
    let fileNode := getNode node.parent
    let source := fileNode.sourceInstanceName
    if source = "stories" then
      let fieldData : FieldData := storyFieldData node.frontmatter
      let mdxStoryPageId := createNodeId (node.id ++ " >>> MdxStoryPage")
      [OnCreateNodeAction.createNode
        { data := fieldData
          id := mdxStoryPageId
          parent := node.id
          internalType := "MdxStoryPage"
          contentDigest := createContentDigest fieldData
          content := stringifyJson fieldData
          internalDescription := "Mdx implementation of the StoryPage interface" },
       OnCreateNodeAction.createParentChildLink node.id mdxStoryPageId]
    else []

/-- A node of the `allStoryPage` GraphQL query result: the query selects only
`slug`. -/
structure StoryQueryNode where
  slug : String
  deriving DecidableEq, Repr

/-- The result of the awaited `graphql` call in `createPages`.  `errors` is
`some _` exactly when `result.errors` is truthy in JS; `nodes` is
`result.data.allStoryPage.nodes` (only read when there are no errors). -/
structure QueryResult where
  errors : Option String
  nodes : List StoryQueryNode
  deriving DecidableEq, Repr

/-- The `context` object of a `createPage` call.  The listing page's context
has no `slug` key, modelled as `none`. -/
structure PageContext where
  breadcrumbs : List String
  slug : Option String
  formatString : String
  deriving DecidableEq, Repr

/-- The argument object of a `createPage` call. -/
structure PageInput where
  path : String
  component : String
  context : PageContext
  deriving DecidableEq, Repr

/-- Framework actions performed by `createPages`. -/
inductive CreatePagesAction
  | createPage (page : PageInput)
  | panicOnBuild (message : String)
  deriving DecidableEq, Repr

/-- `require.resolve('./src/templates/stories-page-query.js')`, identified by
its module path. -/
def storiesPageTemplate : String := "./src/templates/stories-page-query.js"

/-- `require.resolve('./src/templates/story-page-query.js')`, identified by
its module path. -/
def storyPageTemplate : String := "./src/templates/story-page-query.js"

/-- The unconditional `createPage` call for the `/stories` listing page. -/
def storiesListingPage : CreatePagesAction :=
  CreatePagesAction.createPage
    { path := "/stories"
      component := storiesPageTemplate
      context := { breadcrumbs := ["stories"], slug := none, formatString := "DD.MM.YYYY" } }

/-- `page.slug.split('/').filter(Boolean)`: split on `'/'` and drop the empty
segments. -/
def breadcrumbsOf (slug : String) : List String :=
  (slug.split (fun c => c = '/')).filter (fun s => s != "")

/-- The `createPage` call emitted for one `allStoryPage` query node. -/
def storyPageFor (page : StoryQueryNode) : CreatePagesAction :=
  CreatePagesAction.createPage
    { path := collapseSlashes page.slug
      component := storyPageTemplate
      context :=
        { breadcrumbs := breadcrumbsOf page.slug
          slug := some page.slug
          formatString := "DD.MM.YYYY" } }

/-- `exports.createPages`: creates the `/stories` listing page, runs the
query, then either panics on build (and returns) when the query has errors, or
creates one page per query node. -/
def createPages (result : QueryResult) : List CreatePagesAction :=
  storiesListingPage ::
    (match result.errors with
     | some _ => [CreatePagesAction.panicOnBuild "There was an error loading your pages"]
     | none => result.nodes.map storyPageFor)

/-- `true` for a `createPage` action whose component is the story page
template. -/
def isStoryPageAction : CreatePagesAction → Bool
  | CreatePagesAction.createPage p => p.component == storyPageTemplate
  | CreatePagesAction.panicOnBuild _ => false

/-- The story pages among a list of `createPages` actions. -/
def storyPageActions (actions : List CreatePagesAction) : List CreatePagesAction :=
  actions.filter isStoryPageAction

/-- The `path` argument of a `createPage` action (panics carry no path). -/
def actionPath : CreatePagesAction → String
  | CreatePagesAction.createPage p => p.path
  | CreatePagesAction.panicOnBuild _ => ""

/-- The `fieldData` of the first `createNode` action, if any. -/
def createdFieldData : List OnCreateNodeAction → Option FieldData
  | OnCreateNodeAction.createNode n :: _ => some n.data
  | _ => none

/-- The kind of a framework action, forgetting its payload; used to compare
the control paths of the hooks. -/
inductive ActionKind
  | createFieldExtension
  | createTypes
  | createNode
  | createParentChildLink
  | createPage
  | panicOnBuild
  deriving DecidableEq, Repr

def schemaActionKind : SchemaAction → ActionKind
  | SchemaAction.createFieldExtension _ => ActionKind.createFieldExtension
  | SchemaAction.createTypes _ => ActionKind.createTypes

def sourceNodesActionKind : SourceNodesAction → ActionKind
  | SourceNodesAction.createNode _ => ActionKind.createNode

def onCreateNodeActionKind : OnCreateNodeAction → ActionKind
  | OnCreateNodeAction.createNode _ => ActionKind.createNode
  | OnCreateNodeAction.createParentChildLink _ _ => ActionKind.createParentChildLink

def createPagesActionKind : CreatePagesAction → ActionKind
  | CreatePagesAction.createPage _ => ActionKind.createPage
  | CreatePagesAction.panicOnBuild _ => ActionKind.panicOnBuild

/-! Properties of the slash-collapsing replacement. -/

/-- After a slash has just been emitted, the collapsed output cannot start
with another slash. -/
theorem collapseGo_true_head (l : List Char) :
    (collapseGo true l).head? ≠ some '/' := by
  induction l with
  | nil => simp [collapseGo]
  | cons c rest ih =>
    by_cases hc : c = '/'
    · simpa [collapseGo, hc] using ih
    · simp [collapseGo, hc]

/-- The collapsed output never contains two consecutive slashes. -/
theorem collapseGo_hasDoubleSlash (l : List Char) :
    ∀ b, hasDoubleSlash (collapseGo b l) = false := by
  induction l with
  | nil => intro b; simp [collapseGo, hasDoubleSlash]
  | cons c rest ih =>
    intro b
    by_cases hc : c = '/'
    · cases b with
      | true => simpa [collapseGo, hc] using ih true
      | false =>
        have hhead := collapseGo_true_head rest
        have htail := ih true
        cases hxs : collapseGo true rest with
        | nil => simp [collapseGo, hc, hxs, hasDoubleSlash]
        | cons c2 r =>
          have hc2 : ¬c2 = '/' := by
            intro h
            exact hhead (by simp [hxs, h])
          have htail' : hasDoubleSlash (c2 :: r) = false := by rw [← hxs]; exact htail
          simp [collapseGo, hc, hxs, hasDoubleSlash, hc2, htail']
    · have htail := ih false
      cases hxs : collapseGo false rest with
      | nil => simp [collapseGo, hc, hxs, hasDoubleSlash]
      | cons c2 r =>
        have htail' : hasDoubleSlash (c2 :: r) = false := by rw [← hxs]; exact htail
        simp [collapseGo, hc, hxs, hasDoubleSlash, htail']

/-- Collapsing is the identity on inputs that are already collapsed (no
double slash, and no leading slash when the accumulator says one was just
emitted). -/
theorem collapseGo_eq_self (l : List Char) :
    ∀ b, hasDoubleSlash l = false → (b = true → l.head? ≠ some '/') →
      collapseGo b l = l := by
  induction l with
  | nil => intro b _ _; rfl
  | cons c rest ih =>
    intro b hds hb
    by_cases hc : c = '/'
    · have hbf : b = false := by
        cases b with
        | false => rfl
        | true => exact absurd (by simp [hc]) (hb rfl)
      subst hbf
      subst hc
      have hrest : hasDoubleSlash rest = false ∧ (rest.head? ≠ some '/') := by
        cases rest with
        | nil => exact ⟨rfl, by simp⟩
        | cons c2 r =>
          have : ¬c2 = '/' ∧ hasDoubleSlash (c2 :: r) = false := by
            by_cases h2 : c2 = '/'
            · rw [h2] at hds
              simp [hasDoubleSlash] at hds
            · refine ⟨h2, ?_⟩
              simpa [hasDoubleSlash, h2] using hds
          exact ⟨this.2, by simp [this.1]⟩
      have hstep : collapseGo false ('/' :: rest) = '/' :: collapseGo true rest := by
        simp [collapseGo]
      rw [hstep, ih true hrest.1 (fun _ => hrest.2)]
    · have hds' : hasDoubleSlash rest = false := by
        cases rest with
        | nil => rfl
        | cons c2 r => simpa [hasDoubleSlash, hc] using hds
      have hstep : collapseGo b (c :: rest) = c :: collapseGo false rest := by
        cases b <;> simp [collapseGo, hc]
      rw [hstep, ih false hds' (by simp)]

/-- The result of `collapseSlashes` contains no double slash. -/
theorem collapseSlashes_hasDoubleSlash (s : String) :
    hasDoubleSlash (collapseSlashes s).data = false :=
  collapseGo_hasDoubleSlash s.data false

/-- `collapseSlashes` is idempotent. -/
theorem collapseSlashes_idem (s : String) :
    collapseSlashes (collapseSlashes s) = collapseSlashes s := by
  unfold collapseSlashes
  congr 1
  exact collapseGo_eq_self _ false (collapseGo_hasDoubleSlash _ false) (by simp)

/-- Collapsing a string that starts with a slash yields a string that starts
with a slash. -/
theorem collapseSlashes_slash_head (s : String) :
    (collapseSlashes ("/" ++ s)).data.head? = some '/' := by
  have hdata : ("/" ++ s).data = '/' :: s.data := by
    show ("/").data ++ s.data = '/' :: s.data
    rfl
  simp [collapseSlashes, hdata, collapseGo]

/-- In a string without double slashes that starts with a slash, the second
character is not a slash. -/
theorem noDoubleSlash_second (l : List Char) (hds : hasDoubleSlash l = false)
    (hh : l.head? = some '/') : l.tail.head? ≠ some '/' := by
  cases l with
  | nil => simp at hh
  | cons c xs =>
    cases xs with
    | nil => simp
    | cons c2 r =>
      have hc : c = '/' := by simpa using hh
      intro h
      have hc2 : c2 = '/' := by simpa using h
      rw [hc, hc2] at hds
      simp [hasDoubleSlash] at hds

/-- `slugify` written as one expression: the slash-prefixed, slash-collapsed
frontmatter slug when that is truthy, else `kebabCase` of the title. -/
theorem slugify_eq_collapse (kebabCase : String → String) (source : SlugSource) :
    slugify kebabCase source =
      collapseSlashes
        ("/" ++ (if jsTruthy source.slug then source.slug.getD "" else kebabCase source.title)) := by
  obtain ⟨oslug, title⟩ := source
  cases oslug with
  | none => rfl
  | some s =>
    by_cases he : s = ""
    · subst he; rfl
    · simp [slugify, jsTruthy, he]

/-- C7: for every source whose slug (possibly absent) and title fields are
strings, the string returned by `slugify` starts with exactly one slash (its
first character is a slash and its second is not) and contains no occurrence
of two consecutive slashes. -/
theorem slugify_single_leading_slash (kebabCase : String → String) (source : SlugSource) :
    (slugify kebabCase source).data.head? = some '/' ∧
    hasDoubleSlash (slugify kebabCase source).data = false ∧
    (slugify kebabCase source).data.tail.head? ≠ some '/' := by
  rw [slugify_eq_collapse]
  exact ⟨collapseSlashes_slash_head _, collapseSlashes_hasDoubleSlash _,
    noDoubleSlash_second _ (collapseSlashes_hasDoubleSlash _) (collapseSlashes_slash_head _)⟩

/-- C8: `createPages` creates the `/stories` listing page (component
`stories-page-query`, breadcrumbs `['stories']`) unconditionally and first on
every run, including runs in which the query returns errors and the build is
failed. -/
theorem stories_listing_page_always_created (result : QueryResult) :
    (createPages result).head? = some storiesListingPage ∧
    (∀ (e : String) (nodes : List StoryQueryNode),
        storiesListingPage ∈ createPages { errors := some e, nodes := nodes }) ∧
    storiesListingPage = CreatePagesAction.createPage
      { path := "/stories"
        component := storiesPageTemplate
        context := { breadcrumbs := ["stories"], slug := none, formatString := "DD.MM.YYYY" } } := by
  refine ⟨rfl, ?_, rfl⟩
  intro e nodes
  exact List.mem_cons_self _ _

/-- C2: if the GraphQL query returns errors, `createPages` invokes
`reporter.panicOnBuild` and returns without creating any story page: its
framework actions are exactly the listing page followed by the panic. -/
theorem createPages_query_errors_fail_build (e : String) (nodes : List StoryQueryNode) :
    createPages { errors := some e, nodes := nodes } =
      [storiesListingPage,
       CreatePagesAction.panicOnBuild "There was an error loading your pages"] ∧
    storyPageActions (createPages { errors := some e, nodes := nodes }) = [] :=
  ⟨rfl, rfl⟩

/-- C9: for a stories Mdx node whose frontmatter slug is falsy (absent, null
or the empty string), the created `MdxStoryPage` node's slug field is
`undefined`, so `slugify` on such a node derives the slug from `kebabCase` of
the title. -/
theorem falsy_frontmatter_slug_undefined (createNodeId : String → String)
    (createContentDigest : FieldData → String) (stringifyJson : FieldData → String)
    (node : MdxNode) (getNode : String → FileNode)
    (hType : node.internal.type = "Mdx")
    (hSource : (getNode node.parent).sourceInstanceName = "stories")
    (hFalsy : node.frontmatter.slug = none ∨ node.frontmatter.slug = some "") :
    createdFieldData (onCreateNode createNodeId createContentDigest stringifyJson node getNode) =
      some { slug := none
             title := node.frontmatter.title
             releaseDate := node.frontmatter.releaseDate
             banner := node.frontmatter.banner
             description := node.frontmatter.description } ∧
    (∀ (kebabCase : String → String) (title : String),
        slugify kebabCase { slug := none, title := title } =
          collapseSlashes ("/" ++ kebabCase title)) := by
  constructor
  · have hslug : jsTruthy node.frontmatter.slug = false := by
      rcases hFalsy with h | h <;> simp [jsTruthy, h]
    simp [onCreateNode, hType, hSource, createdFieldData, storyFieldData, hslug]
  · intro kebabCase title
    rfl

/-- Witness for C9 at a concrete stories Mdx node with an empty frontmatter
slug. -/
theorem falsy_frontmatter_slug_undefined_witness :
    createdFieldData
        (onCreateNode (fun s => s) (fun _ => "digest") (fun _ => "json")
          { id := "mdx-1"
            parent := "file-1"
            internal := { type := "Mdx" }
            frontmatter :=
              { slug := some ""
                title := some "My Story"
                releaseDate := some "2020-07-14"
                banner := none
                description := none } }
          (fun _ => { sourceInstanceName := "stories" })) =
      some { slug := none
             title := some "My Story"
             releaseDate := some "2020-07-14"
             banner := none
             description := none } :=
  (falsy_frontmatter_slug_undefined (fun s => s) (fun _ => "digest") (fun _ => "json")
    { id := "mdx-1", parent := "file-1", internal := { type := "Mdx" },
      frontmatter := { slug := some "", title := some "My Story",
                       releaseDate := some "2020-07-14", banner := none, description := none } }
    (fun _ => { sourceInstanceName := "stories" }) rfl rfl (Or.inr rfl)).1

/-- C3: `onCreateNode` creates a child `MdxStoryPage` node and links it to
its parent if and only if the node's `internal.type` is `'Mdx'` and the
parent file node's `sourceInstanceName` is `'stories'`; for every other node
it performs no framework actions. -/
theorem onCreateNode_story_nodes_only (createNodeId : String → String)
    (createContentDigest : FieldData → String) (stringifyJson : FieldData → String)
    (node : MdxNode) (getNode : String → FileNode) :
    onCreateNode createNodeId createContentDigest stringifyJson node getNode =
      (if node.internal.type = "Mdx" ∧ (getNode node.parent).sourceInstanceName = "stories" then
        [OnCreateNodeAction.createNode
          { data := storyFieldData node.frontmatter
            id := createNodeId (node.id ++ " >>> MdxStoryPage")
            parent := node.id
            internalType := "MdxStoryPage"
            contentDigest := createContentDigest (storyFieldData node.frontmatter)
            content := stringifyJson (storyFieldData node.frontmatter)
            internalDescription := "Mdx implementation of the StoryPage interface" },
         OnCreateNodeAction.createParentChildLink node.id
           (createNodeId (node.id ++ " >>> MdxStoryPage"))]
      else []) := by
  by_cases h1 : node.internal.type = "Mdx"
  · by_cases h2 : (getNode node.parent).sourceInstanceName = "stories"
    · simp [onCreateNode, h1, h2]
    · simp [onCreateNode, h1, h2]
  · simp [onCreateNode, h1]

/-- C5: for every node of a successful query result, `createPages` emits a
page whose path is the node's slug with consecutive slashes collapsed, whose
component is the story page template, and whose context holds the breadcrumbs
(the slug split on '/' with empty segments dropped), the original slug, and
the format string `DD.MM.YYYY`. -/
theorem createPages_emits_story_page (nodes : List StoryQueryNode)
    (n : StoryQueryNode) (h : n ∈ nodes) :
    CreatePagesAction.createPage
        { path := collapseSlashes n.slug
          component := storyPageTemplate
          context :=
            { breadcrumbs := (n.slug.split (fun c => c = '/')).filter (fun s => s != "")
              slug := some n.slug
              formatString := "DD.MM.YYYY" } }
      ∈ createPages { errors := none, nodes := nodes } := by
  show storyPageFor n ∈ createPages { errors := none, nodes := nodes }
  exact List.mem_cons_of_mem _ (List.mem_map_of_mem storyPageFor h)

/-- Witness for C5 at a concrete one-node query result. -/
theorem createPages_emits_story_page_witness :
    CreatePagesAction.createPage
        { path := collapseSlashes "/notes/hello"
          component := storyPageTemplate
          context :=
            { breadcrumbs := ("/notes/hello".split (fun c => c = '/')).filter (fun s => s != "")
              slug := some "/notes/hello"
              formatString := "DD.MM.YYYY" } }
      ∈ createPages { errors := none, nodes := [{ slug := "/notes/hello" }] } :=
  createPages_emits_story_page [{ slug := "/notes/hello" }] { slug := "/notes/hello" } (by simp)

/-- C4: the pipeline commutes with slug computation: `slugify` resolves to
`source.slug` when that field is truthy and to `kebabCase(source.title)`
otherwise, prefixed with '/' and with every run of consecutive slashes
collapsed; and the page `createPages` creates for a story whose queried slug
is that string has exactly this string as its path. -/
theorem pipeline_commutes_with_slug (kebabCase : String → String)
    (source : SlugSource) (node : StoryQueryNode)
    (h : node.slug = slugify kebabCase source) :
    slugify kebabCase source =
      collapseSlashes
        ("/" ++ (if jsTruthy source.slug then source.slug.getD "" else kebabCase source.title)) ∧
    actionPath (storyPageFor node) = node.slug := by
  refine ⟨slugify_eq_collapse kebabCase source, ?_⟩
  show collapseSlashes node.slug = node.slug
  rw [h, slugify_eq_collapse]
  exact collapseSlashes_idem _

/-- Witness for C4 at a concrete source whose frontmatter slug contains a
double slash. -/
theorem pipeline_commutes_with_slug_witness :
    slugify (fun s => s) { slug := some "hello//world", title := "ignored" } =
      collapseSlashes
        ("/" ++ (if jsTruthy (some "hello//world") then (some "hello//world").getD ""
                 else (fun s : String => s) "ignored")) ∧
    actionPath (storyPageFor
        { slug := slugify (fun s => s) { slug := some "hello//world", title := "ignored" } }) =
      slugify (fun s => s) { slug := some "hello//world", title := "ignored" } :=
  pipeline_commutes_with_slug (fun s => s) { slug := some "hello//world", title := "ignored" }
    { slug := slugify (fun s => s) { slug := some "hello//world", title := "ignored" } } rfl

/-- C1: in a successful run, exactly one page is created per content slug:
the paths of the story pages `createPages` emits are exactly the query's slug
list (one page per node, its path the node's slug), distinct slugs give
distinct page paths, and every `slugify` output is already slash-collapsed,
which is what justifies the hypothesis on the queried slugs. -/
theorem createPages_one_page_per_slug (nodes : List StoryQueryNode)
    (h : ∀ n ∈ nodes, collapseSlashes n.slug = n.slug) :
    (storyPageActions (createPages { errors := none, nodes := nodes })).map actionPath =
      nodes.map StoryQueryNode.slug ∧
    (∀ n1 ∈ nodes, ∀ n2 ∈ nodes, n1.slug ≠ n2.slug →
        actionPath (storyPageFor n1) ≠ actionPath (storyPageFor n2)) ∧
    (∀ (kebabCase : String → String) (source : SlugSource),
        collapseSlashes (slugify kebabCase source) = slugify kebabCase source) := by
  have hstory : storyPageActions (createPages { errors := none, nodes := nodes }) =
      nodes.map storyPageFor := by
    show (storiesListingPage :: nodes.map storyPageFor).filter isStoryPageAction =
      nodes.map storyPageFor
    rw [List.filter_cons_of_neg]
    · exact List.filter_eq_self.mpr (by
        intro a ha
        obtain ⟨n, _, rfl⟩ := List.mem_map.mp ha
        rfl)
    · simp [isStoryPageAction, storiesListingPage, storiesPageTemplate, storyPageTemplate]
  refine ⟨?_, ?_, ?_⟩
  · rw [hstory, List.map_map]
    refine List.map_congr_left ?_
    intro n hn
    show collapseSlashes n.slug = n.slug
    exact h n hn
  · intro n1 h1 n2 h2 hne
    show collapseSlashes n1.slug ≠ collapseSlashes n2.slug
    rw [h n1 h1, h n2 h2]
    exact hne
  · intro kebabCase source
    rw [slugify_eq_collapse]
    exact collapseSlashes_idem _

/-- Witness for C1 at a concrete two-node query result with collapsed
slugs. -/
theorem createPages_one_page_per_slug_witness :
    (storyPageActions
        (createPages
          { errors := none
            nodes := [{ slug := "/alpha" }, { slug := "/beta" }] })).map actionPath =
      ["/alpha", "/beta"] :=
  (createPages_one_page_per_slug [{ slug := "/alpha" }, { slug := "/beta" }] (by decide)).1

/-- C6 fails as stated: `onCreateNode` performs different framework-action
sequences on two concrete inputs (a stories Mdx node versus a node of another
internal type), so the hooks do not perform the same action sequence for any
two inputs. -/
theorem onCreateNode_actions_depend_on_input :
    onCreateNode (fun s => s) (fun _ => "digest") (fun _ => "json")
        { id := "mdx-1", parent := "file-1", internal := { type := "Mdx" },
          frontmatter := { slug := none, title := some "A", releaseDate := none,
                           banner := none, description := none } }
        (fun _ => { sourceInstanceName := "stories" }) ≠
      onCreateNode (fun s => s) (fun _ => "digest") (fun _ => "json")
        { id := "mdx-1", parent := "file-1", internal := { type := "File" },
          frontmatter := { slug := none, title := some "A", releaseDate := none,
                           banner := none, description := none } }
        (fun _ => { sourceInstanceName := "stories" }) := by
  decide

/-- C6 amended: `createSchemaCustomization` and `sourceNodes` perform a fixed
sequence of framework-action kinds independent of their inputs, while
`onCreateNode` and `createPages` each have exactly one data-dependent branch:
`onCreateNode` emits `createNode` then `createParentChildLink` exactly for
stories Mdx nodes and nothing otherwise, and `createPages` emits the listing
page followed by a single panic on query errors, or by one `createPage` per
query node on success. -/
theorem hooks_single_control_path :
    (createSchemaCustomization.map schemaActionKind =
      [ActionKind.createFieldExtension, ActionKind.createFieldExtension,
       ActionKind.createTypes]) ∧
    (∀ (digest stringify : MinimalBlogConfigData → String),
        (sourceNodes digest stringify).map sourceNodesActionKind = [ActionKind.createNode]) ∧
    (∀ (createNodeId : String → String) (digest stringify : FieldData → String)
        (node : MdxNode) (getNode : String → FileNode),
        (onCreateNode createNodeId digest stringify node getNode).map onCreateNodeActionKind =
          if node.internal.type = "Mdx" ∧ (getNode node.parent).sourceInstanceName = "stories"
          then [ActionKind.createNode, ActionKind.createParentChildLink]
          else []) ∧
    (∀ result : QueryResult,
        (createPages result).map createPagesActionKind =
          ActionKind.createPage ::
            (match result.errors with
             | some _ => [ActionKind.panicOnBuild]
             | none => result.nodes.map fun _ => ActionKind.createPage)) := by
  refine ⟨rfl, fun _ _ => rfl, ?_, ?_⟩
  · intro createNodeId digest stringify node getNode
    by_cases h1 : node.internal.type = "Mdx"
    · by_cases h2 : (getNode node.parent).sourceInstanceName = "stories"
      · simp [onCreateNode, h1, h2]
        exact ⟨rfl, rfl⟩
      · simp [onCreateNode, h1, h2]
    · simp [onCreateNode, h1]
  · intro result
    cases hr : result.errors with
    | some e =>
      simp [createPages, hr]
      exact ⟨rfl, rfl⟩
    | none =>
      simp [createPages, hr, List.map_map]
      refine ⟨rfl, ?_⟩
      have hfun : (createPagesActionKind ∘ storyPageFor) =
          fun _ : StoryQueryNode => ActionKind.createPage := by
        funext n; rfl
      rw [hfun]
      exact List.map_const' _ _

end GatsbyNode
